import Mathlib

/-!
Shallow embedding of the ephemeral geospatial store (location-service):
in-memory registries of user positions and police pins, with age-based
eviction, a per-creator spatial admission rule for pins, and snapshot reads.

Modelling choices, faithful to the source:
* A JavaScript `Map` is modelled as an insertion-ordered association list
  with `jsSet` (replace in place if the key is present, else append),
  `jsDelete`, `jsGet` (first match) and `jsValues`.
* Timestamps are natural numbers of milliseconds; the clock value `now` is
  passed explicitly to each operation that reads the clock, so every
  `new Date().getTime()` / `Date.now()` inside one call yields that `now`.
  JavaScript's `now - t > threshold` on numbers and Nat subtraction agree
  here: when `t > now` both sides refuse to evict.
* Coordinates are rationals and the great-circle distance is an abstract
  parameter `dist` of type `Dist`: the source's `calculateDistance` is the
  Haversine formula over binary64 floats with Earth radius 6371e3 m, a
  transcendental computation with no kernel-evaluable counterpart, so every
  theorem below is proved for an arbitrary distance function — in
  particular for the Haversine one.  The comparison `distance < 100` is the
  source's strict comparison.
-/

namespace LocationService

/-- The `UserLocation` record of the source. -/
structure UserLocation where
  id : String
  name : String
  latitude : ℚ
  longitude : ℚ
  lastUpdated : Nat
  deriving DecidableEq, Repr

/-- The `PolicePin` record of the source. -/
structure PolicePin where
  id : String
  userId : String
  userName : String
  latitude : ℚ
  longitude : ℚ
  createdAt : Nat
  deriving DecidableEq, Repr

/-- The constant `STALE_THRESHOLD = 30 * 1000` milliseconds. -/
def STALE_THRESHOLD : Nat := 30 * 1000

/-- The constant `POLICE_PIN_THRESHOLD = 20 * 60 * 1000` milliseconds. -/
def POLICE_PIN_THRESHOLD : Nat := 20 * 60 * 1000

/-- A JavaScript `Map<string, α>` as an insertion-ordered association list. -/
abbrev JsMap (α : Type) := List (String × α)

/-- JavaScript `Map.set`: if the key is present, replace its value in place;
otherwise append the new entry at the end. -/
def jsSet {α : Type} (m : JsMap α) (k : String) (v : α) : JsMap α :=
  if m.any (fun p => p.1 == k) then
    m.map (fun p => if p.1 == k then (k, v) else p)
  else
    m ++ [(k, v)]

/-- JavaScript `Map.delete`. -/
def jsDelete {α : Type} (m : JsMap α) (k : String) : JsMap α :=
  m.filter (fun p => !(p.1 == k))

/-- JavaScript `Map.get`: the value of the first entry with the given key. -/
def jsGet {α : Type} (m : JsMap α) (k : String) : Option α :=
  (m.find? (fun p => p.1 == k)).map Prod.snd

/-- JavaScript `Array.from(map.values())`. -/
def jsValues {α : Type} (m : JsMap α) : List α :=
  m.map Prod.snd

abbrev LocStore := JsMap UserLocation
abbrev PinStore := JsMap PolicePin

/-- Source `cleanStaleLocations`: delete every location whose age strictly
exceeds `STALE_THRESHOLD`. -/
def cleanStaleLocations (now : Nat) (st : LocStore) : LocStore :=
  st.filter (fun p => !(decide (now - p.2.lastUpdated > STALE_THRESHOLD)))

/-- Source `cleanStalePolicePins`: delete every pin whose age strictly exceeds
`POLICE_PIN_THRESHOLD`. -/
def cleanStalePolicePins (now : Nat) (st : PinStore) : PinStore :=
  st.filter (fun p => !(decide (now - p.2.createdAt > POLICE_PIN_THRESHOLD)))

/-- An abstract great-circle distance function
`(lat1, lon1, lat2, lon2) ↦ metres`, standing for the source's
`calculateDistance` (Haversine, R = 6371e3 m). -/
abbrev Dist := ℚ → ℚ → ℚ → ℚ → ℚ

/-- The fallback display name: `` `User ${userId.slice(0, 4)}` ``. -/
def defaultName (userId : String) : String := "User " ++ userId.take 4

/-- JavaScript `name || defaultName`: the `||` takes the fallback when `name`
is absent (`undefined`) or the empty string (both falsy). -/
def resolveName (userId : String) (name : Option String) : String :=
  match name with
  | some n => if n = "" then defaultName userId else n
  | none => defaultName userId

/-- Result shape `{ success: boolean }` of the location operations. -/
structure UpdateResult where
  success : Bool
  deriving DecidableEq, Repr

/-- Result shape `{ success: boolean, error?: string }` of `addPolicePin`. -/
structure PinResult where
  success : Bool
  error : Option String
  deriving DecidableEq, Repr

/-- The rejection message of `addPolicePin`. -/
def TOO_CLOSE_MSG : String :=
  "Cannot place pin within 100 meters of your existing pins"

/-- Source `updateLocation(userId, latitude, longitude, name?)`. -/
def updateLocation (now : Nat) (st : LocStore) (userId : String)
    (latitude longitude : ℚ) (name : Option String) :
    UpdateResult × LocStore :=
  let st1 := cleanStaleLocations now st
  ({ success := true },
    jsSet st1 userId
      { id := userId
        name := resolveName userId name
        latitude := latitude
        longitude := longitude
        lastUpdated := now })

/-- Source `removeLocation(userId)`: note that it performs no eviction pass. -/
def removeLocation (st : LocStore) (userId : String) :
    UpdateResult × LocStore :=
  ({ success := true }, jsDelete st userId)

/-- Source `getAllLocations()`: evict, then return the remaining values. -/
def getAllLocations (now : Nat) (st : LocStore) :
    List UserLocation × LocStore :=
  let st1 := cleanStaleLocations now st
  (jsValues st1, st1)

/-- Source `getLocationCount()`: evict, then return the map size. -/
def getLocationCount (now : Nat) (st : LocStore) : Nat × LocStore :=
  let st1 := cleanStaleLocations now st
  (st1.length, st1)

/-- The generated pin id `` `${userId}-${Date.now()}` ``. -/
def pinIdOf (userId : String) (now : Nat) : String :=
  userId ++ "-" ++ toString now

/-- Source `addPolicePin(userId, userName, latitude, longitude)` with clock value
`now` and distance function `dist`. -/
def addPolicePin (dist : Dist) (now : Nat) (st : PinStore)
    (userId userName : String) (latitude longitude : ℚ) :
    PinResult × PinStore :=
  let st1 := cleanStalePolicePins now st
  if st1.any (fun p =>
      p.2.userId == userId &&
      decide (dist p.2.latitude p.2.longitude latitude longitude < 100)) then
    ({ success := false, error := some TOO_CLOSE_MSG }, st1)
  else
    let pinId := pinIdOf userId now
    ({ success := true, error := none },
      jsSet st1 pinId
        { id := pinId
          userId := userId
          userName := userName
          latitude := latitude
          longitude := longitude
          createdAt := now })

/-- Source `getAllPolicePins()`: evict, then return the remaining values. -/
def getAllPolicePins (now : Nat) (st : PinStore) :
    List PolicePin × PinStore :=
  let st1 := cleanStalePolicePins now st
  (jsValues st1, st1)

/-- A constant distance function (200 m everywhere), used to instantiate
theorems at concrete inputs. -/
def distFar : Dist := fun _ _ _ _ => 200

/-- A constant distance function (10 m everywhere), used to instantiate
theorems at concrete inputs. -/
def distNear : Dist := fun _ _ _ _ => 10

end LocationService

namespace LocationService

theorem mem_jsSet_self {α : Type} (m : JsMap α) (k : String) (v : α) :
    (k, v) ∈ jsSet m k v := by
  unfold jsSet
  by_cases h : m.any (fun p => p.1 == k)
  · rw [if_pos h]
    obtain ⟨x, hx, hpx⟩ := List.any_eq_true.mp h
    have : (fun p : String × α => if p.1 == k then (k, v) else p) x = (k, v) := by
      simp [hpx]
    exact List.mem_map.mpr ⟨x, hx, this⟩
  · rw [if_neg h]
    exact List.mem_append_right _ (List.mem_singleton.mpr rfl)

theorem mem_jsSet_ne {α : Type} {m : JsMap α} {k k' : String} {v w : α}
    (hk : k' ≠ k) : (k', w) ∈ jsSet m k v ↔ (k', w) ∈ m := by
  unfold jsSet
  by_cases h : m.any (fun p => p.1 == k)
  · rw [if_pos h]
    constructor
    · intro hmem
      obtain ⟨x, hx, hfx⟩ := List.mem_map.mp hmem
      by_cases hxk : x.1 == k
      · simp [hxk] at hfx
        exact absurd hfx.1.symm hk
      · simp [hxk] at hfx
        exact hfx ▸ hx
    · intro hmem
      have : (fun p : String × α => if p.1 == k then (k, v) else p) (k', w) = (k', w) := by
        simp [hk]
      exact List.mem_map.mpr ⟨(k', w), hmem, this⟩
  · rw [if_neg h]
    constructor
    · intro hmem
      rcases List.mem_append.mp hmem with h1 | h1
      · exact h1
      · have := List.mem_singleton.mp h1
        exact absurd (congrArg Prod.fst this) hk
    · exact fun h1 => List.mem_append_left _ h1

theorem jsGet_jsSet_self {α : Type} (m : JsMap α) (k : String) (v : α) :
    jsGet (jsSet m k v) k = some v := by
  unfold jsGet jsSet
  by_cases h : m.any (fun p => p.1 == k)
  · rw [if_pos h]
    rw [List.find?_map]
    have hcomp : (fun p : String × α => p.1 == k) ∘
        (fun p : String × α => if p.1 == k then (k, v) else p) =
        (fun p : String × α => p.1 == k) := by
      funext p
      by_cases hp : p.1 = k <;> simp [hp]
    rw [hcomp]
    obtain ⟨x, hx, hpx⟩ := List.any_eq_true.mp h
    have hsome : (m.find? (fun p => p.1 == k)).isSome := by
      rw [List.find?_isSome]
      exact ⟨x, hx, hpx⟩
    obtain ⟨y, hy⟩ := Option.isSome_iff_exists.mp hsome
    have hyk := List.find?_some hy
    simp only at hyk
    rw [hy]
    simp [beq_iff_eq.mp hyk]
  · rw [if_neg h]
    have hnone : m.find? (fun p => p.1 == k) = none := by
      rw [List.find?_eq_none]
      intro x hx
      simpa using (List.any_eq_false.mp (Bool.eq_false_iff.mpr h) x hx)
    simp [hnone]

end LocationService

namespace LocationService

theorem digitChar_injOn :
    ∀ a < 10, ∀ b < 10, Nat.digitChar a = Nat.digitChar b → a = b := by
  decide

theorem map_digitChar_inj :
    ∀ (l1 l2 : List ℕ), (∀ x ∈ l1, x < 10) → (∀ x ∈ l2, x < 10) →
      l1.map Nat.digitChar = l2.map Nat.digitChar → l1 = l2 := by
  intro l1
  induction l1 with
  | nil =>
    intro l2 _ _ h
    cases l2 with
    | nil => rfl
    | cons b t => simp at h
  | cons a t ih =>
    intro l2 h1 h2 h
    cases l2 with
    | nil => simp at h
    | cons b t2 =>
      simp only [List.map_cons, List.cons.injEq] at h
      have ha := h1 a (List.mem_cons_self a t)
      have hb := h2 b (List.mem_cons_self b t2)
      have hhead := digitChar_injOn a ha b hb h.1
      have htail := ih t2 (fun x hx => h1 x (List.mem_cons_of_mem a hx))
        (fun x hx => h2 x (List.mem_cons_of_mem b hx)) h.2
      rw [hhead, htail]

theorem toDigitsCore_eq_digits (b : ℕ) (hb : 1 < b) :
    ∀ (fuel n : ℕ) (ds : List Char), n ≠ 0 → n < b ^ fuel →
      Nat.toDigitsCore b fuel n ds =
        ((Nat.digits b n).map Nat.digitChar).reverse ++ ds := by
  intro fuel
  induction fuel with
  | zero =>
    intro n ds hn hlt
    simp at hlt
    omega
  | succ f ih =>
    intro n ds hn hlt
    have hbpos : 0 < b := Nat.lt_of_lt_of_le Nat.one_pos (Nat.le_of_lt hb)
    by_cases hq : n / b = 0
    · have hnb : n < b := (Nat.div_eq_zero_iff hbpos).mp hq
      have hmod : n % b = n := Nat.mod_eq_of_lt hnb
      simp only [Nat.toDigitsCore, hq, if_pos]
      rw [Nat.digits_of_lt b n hn hnb, hmod]
      simp
    · have hdivlt : n / b < b ^ f := by
        rw [Nat.div_lt_iff_lt_mul hbpos]
        calc n < b ^ (f + 1) := hlt
        _ = b ^ f * b := by rw [pow_succ]
      have hrec := ih (n / b) (Nat.digitChar (n % b) :: ds) hq hdivlt
      simp only [Nat.toDigitsCore, hq, if_neg, ite_false]
      rw [hrec, Nat.digits_def' hb (Nat.pos_of_ne_zero hn)]
      simp

theorem toDigits_eq_digits (n : ℕ) (hn : n ≠ 0) :
    Nat.toDigits 10 n = ((Nat.digits 10 n).map Nat.digitChar).reverse := by
  have hlt : n < 10 ^ (n + 1) := by
    calc n < 10 ^ n := Nat.lt_pow_self (by norm_num) n
    _ ≤ 10 ^ (n + 1) := Nat.pow_le_pow_right (by norm_num) (Nat.le_succ n)
  have := toDigitsCore_eq_digits 10 (by norm_num) (n + 1) n [] hn hlt
  unfold Nat.toDigits
  rw [this, List.append_nil]

theorem nat_repr_inj {m n : ℕ} (h : Nat.repr m = Nat.repr n) : m = n := by
  have hdata : Nat.toDigits 10 m = Nat.toDigits 10 n := by
    have := congrArg String.data h
    simpa [Nat.repr, List.asString] using this
  have digits_of_toDigits :
      ∀ k : ℕ, k ≠ 0 → Nat.toDigits 10 k = Nat.toDigits 10 0 → False := by
    intro k hk habs
    have hzero : Nat.toDigits 10 0 = ['0'] := by decide
    rw [toDigits_eq_digits k hk, hzero] at habs
    have hmap : (Nat.digits 10 k).map Nat.digitChar = ['0'] := by
      have := congrArg List.reverse habs
      simpa using this
    have hdig : Nat.digits 10 k = [0] := by
      apply map_digitChar_inj
      · exact fun x hx => Nat.digits_lt_base (by norm_num) hx
      · intro x hx
        simp at hx
        omega
      · rw [hmap]
        decide
    have : k = 0 := by
      have hof := Nat.ofDigits_digits 10 k
      rw [hdig] at hof
      simpa [Nat.ofDigits] using hof.symm
    exact hk this
  by_cases hm : m = 0
  · by_cases hn : n = 0
    · rw [hm, hn]
    · subst hm
      exact absurd (digits_of_toDigits n hn hdata.symm) not_false
  · by_cases hn : n = 0
    · subst hn
      exact absurd (digits_of_toDigits m hm hdata) not_false
    · rw [toDigits_eq_digits m hm, toDigits_eq_digits n hn] at hdata
      have hmap := List.reverse_inj.mp hdata
      have hdig := map_digitChar_inj _ _
        (fun x hx => Nat.digits_lt_base (by norm_num) hx)
        (fun x hx => Nat.digits_lt_base (by norm_num) hx) hmap
      have h1 := Nat.ofDigits_digits 10 m
      have h2 := Nat.ofDigits_digits 10 n
      rw [hdig] at h1
      rw [h2] at h1
      exact h1.symm

theorem toString_nat_inj {m n : ℕ} (h : toString m = toString n) : m = n :=
  nat_repr_inj h

theorem pinIdOf_inj_instant {u : String} {n1 n2 : ℕ}
    (h : pinIdOf u n1 = pinIdOf u n2) : n1 = n2 := by
  apply toString_nat_inj
  apply String.ext
  have hdata := congrArg String.data h
  simp only [pinIdOf, String.data_append, List.append_assoc,
    List.append_right_inj] at hdata
  exact hdata

end LocationService

namespace LocationService

theorem mem_cleanPins_iff (now : Nat) (st : PinStore) (k : String)
    (p : PolicePin) :
    (k, p) ∈ cleanStalePolicePins now st ↔
      (k, p) ∈ st ∧ now - p.createdAt ≤ POLICE_PIN_THRESHOLD := by
  simp only [cleanStalePolicePins, List.mem_filter, Bool.not_eq_true',
    decide_eq_false_iff_not, Nat.not_lt]

theorem mem_cleanLocs_iff (now : Nat) (st : LocStore) (k : String)
    (loc : UserLocation) :
    (k, loc) ∈ cleanStaleLocations now st ↔
      (k, loc) ∈ st ∧ now - loc.lastUpdated ≤ STALE_THRESHOLD := by
  simp only [cleanStaleLocations, List.mem_filter, Bool.not_eq_true',
    decide_eq_false_iff_not, Nat.not_lt]

theorem addPolicePin_rejected_iff (dist : Dist) (now : Nat) (st : PinStore)
    (userId userName : String) (lat lon : ℚ) :
    (addPolicePin dist now st userId userName lat lon).1.success = false ↔
      ∃ k p, (k, p) ∈ cleanStalePolicePins now st ∧ p.userId = userId ∧
        dist p.latitude p.longitude lat lon < 100 := by
  by_cases hcond : (cleanStalePolicePins now st).any
      (fun p => p.2.userId == userId &&
        decide (dist p.2.latitude p.2.longitude lat lon < 100)) = true
  · simp only [addPolicePin, hcond, if_true]
    constructor
    · intro _
      obtain ⟨x, hx, hpx⟩ := List.any_eq_true.mp hcond
      rw [Bool.and_eq_true] at hpx
      exact ⟨x.1, x.2, hx, beq_iff_eq.mp hpx.1, of_decide_eq_true hpx.2⟩
    · intro _
      trivial
  · simp only [addPolicePin, hcond, if_false]
    constructor
    · intro hfalse
      simp at hfalse
    · intro ⟨k, p, hmem, hu, hd⟩
      exact absurd (List.any_eq_true.mpr ⟨(k, p), hmem, by simp [hu, hd]⟩) hcond

theorem addPolicePin_state_eq (dist : Dist) (now : Nat) (st : PinStore)
    (userId userName : String) (lat lon : ℚ) :
    (addPolicePin dist now st userId userName lat lon).2 =
      (if (addPolicePin dist now st userId userName lat lon).1.success = true
       then jsSet (cleanStalePolicePins now st) (pinIdOf userId now)
          { id := pinIdOf userId now, userId := userId, userName := userName,
            latitude := lat, longitude := lon, createdAt := now }
       else cleanStalePolicePins now st) := by
  by_cases hcond : (cleanStalePolicePins now st).any
      (fun p => p.2.userId == userId &&
        decide (dist p.2.latitude p.2.longitude lat lon < 100)) = true
  · simp only [addPolicePin, hcond, if_true]
    rfl
  · simp only [addPolicePin, hcond, if_false]
    rfl

theorem addPolicePin_error_eq (dist : Dist) (now : Nat) (st : PinStore)
    (userId userName : String) (lat lon : ℚ) :
    (addPolicePin dist now st userId userName lat lon).1.error =
      (if (addPolicePin dist now st userId userName lat lon).1.success = true
       then none else some TOO_CLOSE_MSG) := by
  by_cases hcond : (cleanStalePolicePins now st).any
      (fun p => p.2.userId == userId &&
        decide (dist p.2.latitude p.2.longitude lat lon < 100)) = true
  · simp only [addPolicePin, hcond, if_true]
    rfl
  · simp only [addPolicePin, hcond, if_false]
    rfl

theorem addPolicePin_success_of_no_conflict (dist : Dist) (now : Nat)
    (st : PinStore) (userId userName : String) (lat lon : ℚ)
    (hno : ∀ k p, (k, p) ∈ cleanStalePolicePins now st → p.userId = userId →
      ¬ dist p.latitude p.longitude lat lon < 100) :
    (addPolicePin dist now st userId userName lat lon).1.success = true := by
  cases hs : (addPolicePin dist now st userId userName lat lon).1.success with
  | false =>
    obtain ⟨k, p, hmem, hu, hd⟩ :=
      (addPolicePin_rejected_iff dist now st userId userName lat lon).mp hs
    exact absurd hd (hno k p hmem hu)
  | true => rfl

theorem bool_eq_of_false_iff {a b : Bool} (h : a = false ↔ b = false) :
    a = b := by
  cases a <;> cases b <;> simp_all

end LocationService

namespace LocationService

/-- Claim C1: `addPolicePin` first evicts every pin whose age strictly
exceeds `POLICE_PIN_THRESHOLD` (a pin aged exactly the threshold is kept);
it rejects iff some remaining live pin of the same creator lies at distance
strictly less than 100 (exactly 100 never rejects); otherwise it inserts a
new pin with id derived from the creator and the creation instant and
`createdAt = now`, and reports success.  Proved for every distance
function, in particular the source's Haversine distance. -/
theorem addPolicePin_admission (dist : Dist) (now : Nat) (st : PinStore)
    (userId userName : String) (lat lon : ℚ) :
    (∀ k p, (k, p) ∈ cleanStalePolicePins now st ↔
      (k, p) ∈ st ∧ now - p.createdAt ≤ POLICE_PIN_THRESHOLD)
    ∧ ((addPolicePin dist now st userId userName lat lon).1.success = false ↔
        ∃ k p, (k, p) ∈ cleanStalePolicePins now st ∧ p.userId = userId ∧
          dist p.latitude p.longitude lat lon < 100)
    ∧ (addPolicePin dist now st userId userName lat lon).2 =
        (if (addPolicePin dist now st userId userName lat lon).1.success = true
         then jsSet (cleanStalePolicePins now st) (pinIdOf userId now)
            { id := pinIdOf userId now, userId := userId, userName := userName,
              latitude := lat, longitude := lon, createdAt := now }
         else cleanStalePolicePins now st) :=
  ⟨fun k p => mem_cleanPins_iff now st k p,
   addPolicePin_rejected_iff dist now st userId userName lat lon,
   addPolicePin_state_eq dist now st userId userName lat lon⟩

/-- Claim C2: the snapshot read evicts, as a side effect of the read
itself, every record whose age strictly exceeds `STALE_THRESHOLD`, and
returns exactly the remaining live records; a record updated at t0 is
still returned at t0 + 29999 ms and no longer at t0 + 30001 ms. -/
theorem getAllLocations_snapshot (now : Nat) (st : LocStore) :
    (getAllLocations now st).2 = cleanStaleLocations now st
    ∧ (getAllLocations now st).1 = jsValues (cleanStaleLocations now st)
    ∧ (∀ k loc, (k, loc) ∈ cleanStaleLocations now st ↔
        (k, loc) ∈ st ∧ now - loc.lastUpdated ≤ STALE_THRESHOLD)
    ∧ ({ id := "u1", name := "User u1", latitude := 40, longitude := -73,
         lastUpdated := 1000 } : UserLocation) ∈
        (getAllLocations (1000 + 29999)
          [("u1", { id := "u1", name := "User u1", latitude := 40,
                    longitude := -73, lastUpdated := 1000 })]).1
    ∧ ({ id := "u1", name := "User u1", latitude := 40, longitude := -73,
         lastUpdated := 1000 } : UserLocation) ∉
        (getAllLocations (1000 + 30001)
          [("u1", { id := "u1", name := "User u1", latitude := 40,
                    longitude := -73, lastUpdated := 1000 })]).1 :=
  ⟨rfl, rfl, fun k loc => mem_cleanLocs_iff now st k loc, by decide, by decide⟩

/-- Claim C3: the exclusion check is scoped per-creator: the call is
rejected exactly when one of the caller's own live pins is strictly within
100, so pins raised by any other subject never affect the outcome — the
caller's success is unchanged if all pins of other creators are removed
from the registry. -/
theorem addPolicePin_per_creator (dist : Dist) (now : Nat) (st : PinStore)
    (userId userName : String) (lat lon : ℚ) :
    ((addPolicePin dist now st userId userName lat lon).1.success = false ↔
      ∃ k p, (k, p) ∈ cleanStalePolicePins now st ∧ p.userId = userId ∧
        dist p.latitude p.longitude lat lon < 100)
    ∧ (addPolicePin dist now (st.filter (fun p => p.2.userId == userId))
        userId userName lat lon).1.success =
      (addPolicePin dist now st userId userName lat lon).1.success := by
  refine ⟨addPolicePin_rejected_iff dist now st userId userName lat lon, ?_⟩
  apply bool_eq_of_false_iff
  rw [addPolicePin_rejected_iff, addPolicePin_rejected_iff]
  constructor
  · intro ⟨k, p, hmem, hu, hd⟩
    rw [mem_cleanPins_iff] at hmem
    obtain ⟨hmem1, hage⟩ := hmem
    rw [List.mem_filter] at hmem1
    exact ⟨k, p, (mem_cleanPins_iff now st k p).mpr ⟨hmem1.1, hage⟩, hu, hd⟩
  · intro ⟨k, p, hmem, hu, hd⟩
    rw [mem_cleanPins_iff] at hmem
    refine ⟨k, p, (mem_cleanPins_iff now _ k p).mpr
      ⟨List.mem_filter.mpr ⟨hmem.1, by simp [hu]⟩, hmem.2⟩, hu, hd⟩

/-- Claim C4: when `addPolicePin` rejects, the registry after the call is
exactly its state after the initial eviction pass — nothing is inserted —
and the rejection is reported synchronously as a structured result with a
reason string, never thrown (the operation is a total function). -/
theorem addPolicePin_fail_closed (dist : Dist) (now : Nat) (st : PinStore)
    (userId userName : String) (lat lon : ℚ)
    (h : (addPolicePin dist now st userId userName lat lon).1.success =
      false) :
    (addPolicePin dist now st userId userName lat lon).2 =
      cleanStalePolicePins now st
    ∧ (addPolicePin dist now st userId userName lat lon).1.error =
      some TOO_CLOSE_MSG := by
  constructor
  · rw [addPolicePin_state_eq, h]
    simp
  · rw [addPolicePin_error_eq, h]
    simp

/-- Claim C5: `updateLocation` replaces rather than merges: whatever the
prior state held for `userId`, the stored record afterwards is built
wholly from the new call's arguments with `lastUpdated = now`, and when no
name (or an empty one) is supplied the stored name is the derived fallback
label, never the prior record's name. -/
theorem updateLocation_replaces (now : Nat) (st : LocStore)
    (userId : String) (lat lon : ℚ) (name : Option String) :
    jsGet (updateLocation now st userId lat lon name).2 userId =
      some { id := userId, name := resolveName userId name, latitude := lat,
             longitude := lon, lastUpdated := now }
    ∧ resolveName userId none = "User " ++ userId.take 4
    ∧ resolveName userId (some "") = "User " ++ userId.take 4
    ∧ (∀ n : String, resolveName userId (some n) =
        if n = "" then "User " ++ userId.take 4 else n) :=
  ⟨jsGet_jsSet_self _ _ _, rfl, rfl, fun _ => rfl⟩

/-- Claim C6: `removeLocation` is total and idempotent: it always reports
success, for present and absent ids alike, and removing twice leaves the
same state as removing once. -/
theorem removeLocation_idempotent (st : LocStore) (userId : String) :
    (removeLocation st userId).1.success = true
    ∧ (removeLocation (removeLocation st userId).2 userId).1.success = true
    ∧ (removeLocation (removeLocation st userId).2 userId).2 =
        (removeLocation st userId).2 := by
  refine ⟨rfl, rfl, ?_⟩
  simp only [removeLocation, jsDelete, List.filter_filter]
  congr 1
  funext p
  exact Bool.and_self _

/-- Claim C7: the count equals the length of the sequence a simultaneous
snapshot would return, and both operations leave the registry in the same
state, because both perform the same eviction pass before reading. -/
theorem getLocationCount_eq_snapshot (now : Nat) (st : LocStore) :
    (getLocationCount now st).1 = (getAllLocations now st).1.length
    ∧ (getLocationCount now st).2 = (getAllLocations now st).2 := by
  constructor
  · simp [getLocationCount, getAllLocations, jsValues]
  · rfl

/-- Claim C10: `updateLocation` also triggers stale-position eviction:
any entry of another subject whose age strictly exceeds
`STALE_THRESHOLD` at the moment of the write is no longer in the registry
after the call. -/
theorem updateLocation_evicts_stale (now : Nat) (st : LocStore)
    (userId other : String) (rec : UserLocation) (lat lon : ℚ)
    (name : Option String) (hne : other ≠ userId)
    (hstale : now - rec.lastUpdated > STALE_THRESHOLD) :
    (other, rec) ∉ (updateLocation now st userId lat lon name).2 := by
  intro hmem
  simp only [updateLocation] at hmem
  rw [mem_jsSet_ne hne] at hmem
  rw [mem_cleanLocs_iff] at hmem
  omega

end LocationService

namespace LocationService

/-- Claim C8, counterexample: two distinct successful calls by the same
creator at the same millisecond (possible: Date.now has millisecond
resolution) derive the same pinId, so the second insertion silently
replaces the first — the registry holds one entry, not two. -/
theorem pinId_collision_counterexample :
    (addPolicePin distFar 7 [] "u1" "N" 0 0).1.success = true
    ∧ (addPolicePin distFar 7 (addPolicePin distFar 7 [] "u1" "N" 0 0).2
        "u1" "N" 1 1).1.success = true
    ∧ (addPolicePin distFar 7 (addPolicePin distFar 7 [] "u1" "N" 0 0).2
        "u1" "N" 1 1).2.length = 1
    ∧ pinIdOf "u1" 7 = pinIdOf "u1" 7 := by
  decide

/-- Claim C8, amended: pinIds are derived from the creator and the creation
instant; two successful calls by the same creator at distinct creation
instants yield distinct pinIds and the two pins coexist as two entries,
while two successful calls by the same creator at the same instant yield
the same pinId and the second silently replaces the first. -/
theorem pinId_unique_amended (dist : Dist) (u nm1 nm2 : String)
    (now1 now2 : Nat) (lat1 lon1 lat2 lon2 : ℚ)
    (hage : now2 - now1 ≤ POLICE_PIN_THRESHOLD)
    (hfar : ¬ dist lat1 lon1 lat2 lon2 < 100) :
    (addPolicePin dist now1 [] u nm1 lat1 lon1).1.success = true
    ∧ (addPolicePin dist now2 (addPolicePin dist now1 [] u nm1 lat1 lon1).2
        u nm2 lat2 lon2).1.success = true
    ∧ (now1 ≠ now2 → pinIdOf u now1 ≠ pinIdOf u now2
        ∧ (addPolicePin dist now2
            (addPolicePin dist now1 [] u nm1 lat1 lon1).2
            u nm2 lat2 lon2).2.length = 2)
    ∧ (now1 = now2 → pinIdOf u now1 = pinIdOf u now2
        ∧ (addPolicePin dist now2
            (addPolicePin dist now1 [] u nm1 lat1 lon1).2
            u nm2 lat2 lon2).2.length = 1) := by
  have h1st : (addPolicePin dist now1 [] u nm1 lat1 lon1).2 =
      [(pinIdOf u now1,
        { id := pinIdOf u now1, userId := u, userName := nm1,
          latitude := lat1, longitude := lon1, createdAt := now1 })] := by
    simp [addPolicePin, cleanStalePolicePins, jsSet]
  have hagef : (now2 - now1 > POLICE_PIN_THRESHOLD) = False :=
    eq_false (Nat.not_lt.mpr hage)
  refine ⟨by simp [addPolicePin, cleanStalePolicePins], ?_, ?_, ?_⟩
  · rw [h1st]
    simp [addPolicePin, cleanStalePolicePins, hagef, hfar]
  · intro hne
    have hid : pinIdOf u now1 ≠ pinIdOf u now2 :=
      fun h => hne (pinIdOf_inj_instant h)
    have hbeq : ((pinIdOf u now1 : String) == pinIdOf u now2) = false :=
      beq_eq_false_iff_ne.mpr hid
    refine ⟨hid, ?_⟩
    rw [h1st]
    simp [addPolicePin, cleanStalePolicePins, hagef, hfar, jsSet, hbeq]
  · intro heq
    subst heq
    refine ⟨rfl, ?_⟩
    rw [h1st]
    simp [addPolicePin, cleanStalePolicePins, hagef, hfar, jsSet]

/-- Claim C9: two same-instant `addPolicePin` calls by the same subject at
mutual distance strictly less than 100 yield exactly one success and one
rejection in either execution order: the call that runs first inserts its
pin, and the other then finds that freshly inserted live pin of the same
creator within the exclusion radius. -/
theorem concurrent_admission_race (dist : Dist) (now : Nat) (st : PinStore)
    (u nm1 nm2 : String) (lat1 lon1 lat2 lon2 : ℚ)
    (hno1 : ∀ k p, (k, p) ∈ cleanStalePolicePins now st → p.userId = u →
      ¬ dist p.latitude p.longitude lat1 lon1 < 100)
    (hno2 : ∀ k p, (k, p) ∈ cleanStalePolicePins now st → p.userId = u →
      ¬ dist p.latitude p.longitude lat2 lon2 < 100)
    (h12 : dist lat1 lon1 lat2 lon2 < 100)
    (h21 : dist lat2 lon2 lat1 lon1 < 100) :
    ((addPolicePin dist now st u nm1 lat1 lon1).1.success = true
      ∧ (addPolicePin dist now (addPolicePin dist now st u nm1 lat1 lon1).2
          u nm2 lat2 lon2).1.success = false)
    ∧ ((addPolicePin dist now st u nm2 lat2 lon2).1.success = true
      ∧ (addPolicePin dist now (addPolicePin dist now st u nm2 lat2 lon2).2
          u nm1 lat1 lon1).1.success = false) := by
  have first_insert : ∀ nmA latA lonA,
      (addPolicePin dist now st u nmA latA lonA).1.success = true →
      ((pinIdOf u now,
        ({ id := pinIdOf u now, userId := u, userName := nmA,
           latitude := latA, longitude := lonA, createdAt := now } :
          PolicePin)) ∈
        cleanStalePolicePins now
          (addPolicePin dist now st u nmA latA lonA).2) := by
    intro nmA latA lonA hsucc
    rw [mem_cleanPins_iff]
    constructor
    · rw [addPolicePin_state_eq, hsucc]
      simp only [if_true]
      exact mem_jsSet_self _ _ _
    · simp
  have hs1 : (addPolicePin dist now st u nm1 lat1 lon1).1.success = true :=
    addPolicePin_success_of_no_conflict dist now st u nm1 lat1 lon1 hno1
  have hs2 : (addPolicePin dist now st u nm2 lat2 lon2).1.success = true :=
    addPolicePin_success_of_no_conflict dist now st u nm2 lat2 lon2 hno2
  refine ⟨⟨hs1, ?_⟩, ⟨hs2, ?_⟩⟩
  · rw [addPolicePin_rejected_iff]
    exact ⟨pinIdOf u now, _, first_insert nm1 lat1 lon1 hs1, rfl, h12⟩
  · rw [addPolicePin_rejected_iff]
    exact ⟨pinIdOf u now, _, first_insert nm2 lat2 lon2 hs2, rfl, h21⟩

end LocationService

namespace LocationService

/-- Witness for claim C4 at a concrete rejected call. -/
theorem addPolicePin_fail_closed_witness :
    (addPolicePin distNear 0
      [("p", { id := "p", userId := "u1", userName := "N", latitude := 0,
               longitude := 0, createdAt := 0 })] "u1" "M" 5 5).2 =
      cleanStalePolicePins 0
        [("p", { id := "p", userId := "u1", userName := "N", latitude := 0,
                 longitude := 0, createdAt := 0 })]
    ∧ (addPolicePin distNear 0
        [("p", { id := "p", userId := "u1", userName := "N", latitude := 0,
                 longitude := 0, createdAt := 0 })] "u1" "M" 5 5).1.error =
      some TOO_CLOSE_MSG :=
  addPolicePin_fail_closed distNear 0
    [("p", { id := "p", userId := "u1", userName := "N", latitude := 0,
             longitude := 0, createdAt := 0 })] "u1" "M" 5 5 (by decide)

/-- Witness for the amended claim C8 at concrete distinct instants. -/
theorem pinId_unique_amended_witness :
    (addPolicePin distFar 3 [] "u1" "A" 0 0).1.success = true
    ∧ (addPolicePin distFar 4 (addPolicePin distFar 3 [] "u1" "A" 0 0).2
        "u1" "B" 1 1).1.success = true
    ∧ ((3 : Nat) ≠ 4 → pinIdOf "u1" 3 ≠ pinIdOf "u1" 4
        ∧ (addPolicePin distFar 4 (addPolicePin distFar 3 [] "u1" "A" 0 0).2
            "u1" "B" 1 1).2.length = 2)
    ∧ ((3 : Nat) = 4 → pinIdOf "u1" 3 = pinIdOf "u1" 4
        ∧ (addPolicePin distFar 4 (addPolicePin distFar 3 [] "u1" "A" 0 0).2
            "u1" "B" 1 1).2.length = 1) :=
  pinId_unique_amended distFar "u1" "A" "B" 3 4 0 0 1 1 (by decide) (by decide)

/-- Witness for claim C9 at a concrete pair of same-instant calls. -/
theorem concurrent_admission_race_witness :
    ((addPolicePin distNear 0 [] "u1" "A" 0 0).1.success = true
      ∧ (addPolicePin distNear 0 (addPolicePin distNear 0 [] "u1" "A" 0 0).2
          "u1" "B" 1 1).1.success = false)
    ∧ ((addPolicePin distNear 0 [] "u1" "B" 1 1).1.success = true
      ∧ (addPolicePin distNear 0 (addPolicePin distNear 0 [] "u1" "B" 1 1).2
          "u1" "A" 0 0).1.success = false) :=
  concurrent_admission_race distNear 0 [] "u1" "A" "B" 0 0 1 1
    (by intro k p hmem hu; simp [cleanStalePolicePins] at hmem)
    (by intro k p hmem hu; simp [cleanStalePolicePins] at hmem)
    (by decide) (by decide)

/-- Witness for claim C10 at a concrete stale entry of another subject. -/
theorem updateLocation_evicts_stale_witness :
    ("bob", ({ id := "bob", name := "B", latitude := 0, longitude := 0,
               lastUpdated := 0 } : UserLocation)) ∉
      (updateLocation 40000
        [("bob", { id := "bob", name := "B", latitude := 0, longitude := 0,
                   lastUpdated := 0 })] "alice" 1 1 none).2 :=
  updateLocation_evicts_stale 40000
    [("bob", { id := "bob", name := "B", latitude := 0, longitude := 0,
               lastUpdated := 0 })] "alice" "bob"
    { id := "bob", name := "B", latitude := 0, longitude := 0,
      lastUpdated := 0 } 1 1 none (by decide) (by decide)

end LocationService
